import Mathlib

/-!
Verification development for the storyteller repository.

The Python sources under `src/` are shallowly embedded below:

* `src/src/story/plot_manager.py` — the `PlotManager` class becomes the
  `PlotState` structure together with pure state-passing functions
  (`add_plot_point`, `resolve_plot_point`, `introduce_plot_point`,
  `check_dependencies`, `get_arc_progress`, …).  Python `dict`s keyed by
  strings become association lists (`dlookup` / `dictUpd`: assignment to an
  existing key rewrites the stored value in place, assignment to a fresh key
  appends).  Python `set`s become duplicate-free lists with `setAdd` /
  `setRemove`, observed only through membership.
* `src/src/core/story_engine.py` — the `StoryEngine` class becomes the
  `EngineState` structure; the external LLM call is an opaque parameter of
  type `Except ε String` (the collaborator either returns text or raises).

Numbers: Python `int` chapters and counts are `Nat`; the float arithmetic of
`get_arc_progress` (`resolved / total * 100` and the phase breakpoints
`0.3, 0.6, 0.8, 1.0`) is embedded over `ℚ` with the exact literals
`3/10, 6/10, 8/10, 1`.
-/

namespace Storyteller

/-! ### Dictionaries and sets (embedding of Python dict / set) -/

/-- Lookup in an association list: the embedding of Python `d[k]` /
`k in d`.  Returns the first binding of the key. -/
def dlookup {κ β : Type} [DecidableEq κ] : List (κ × β) → κ → Option β
  | [], _ => none
  | e :: rest, k => if e.1 = k then some e.2 else dlookup rest k

/-- Dict assignment `d[k] = v`: rewrites the value of an existing key in
place (Python dicts keep insertion order on overwrite), appends a fresh
binding otherwise. -/
def dictUpd {κ β : Type} [DecidableEq κ] (d : List (κ × β)) (k : κ) (v : β) :
    List (κ × β) :=
  if (dlookup d k).isSome then
    d.map (fun e => if e.1 = k then (k, v) else e)
  else
    d ++ [(k, v)]

/-- Python `set.add`: no-op when the element is already present. -/
def setAdd {α : Type} [DecidableEq α] (s : List α) (x : α) : List α :=
  if x ∈ s then s else s ++ [x]

/-- Python `set.remove` (the element is present in every call site we embed;
removal of an absent element is a no-op here). -/
def setRemove {α : Type} [DecidableEq α] (s : List α) (x : α) : List α :=
  s.filter (fun y => y ≠ x)

/-! ### Data model of `plot_manager.py` -/

/-- `PlotStatus` enum. -/
inductive PlotStatus
  | planned | active | resolved | abandoned | background
deriving DecidableEq

/-- `PlotImportance` enum. -/
inductive PlotImportance
  | critical | major | minor | flavor
deriving DecidableEq

/-- `PlotPoint` dataclass. -/
structure PlotPoint where
  id : String
  title : String
  description : String
  importance : PlotImportance
  status : PlotStatus
  chapter_introduced : Option Nat := none
  chapter_resolved : Option Nat := none
  dependencies : List String := []
  consequences : List String := []
  characters_involved : List String := []
  locations : List String := []
  foreshadowing : List String := []
  revelations : List String := []
  notes : String := ""
deriving DecidableEq

/-- `StoryArc` dataclass (`emotional_journey` dict kept as an assoc list). -/
structure StoryArc where
  id : String
  name : String
  description : String
  plot_points : List String := []
  start_chapter : Option Nat := none
  end_chapter : Option Nat := none
  climax_chapter : Option Nat := none
  themes : List String := []
  emotional_journey : List (String × String) := []
deriving DecidableEq

/-- The mutable state of a `PlotManager` instance (the `Timeline` field is
never touched by the operations under verification and is omitted). -/
structure PlotState where
  plot_points : List (String × PlotPoint) := []
  story_arcs : List (String × StoryArc) := []
  current_chapter : Nat := 1
  unresolved_mysteries : List String := []
  revealed_secrets : List String := []
deriving DecidableEq

/-! ### Operations of `PlotManager` -/

/-- `PlotManager.add_plot_point`. -/
def add_plot_point (st : PlotState) (plot_point : PlotPoint) : PlotState :=
  let st1 := { st with plot_points := dictUpd st.plot_points plot_point.id plot_point }
  if plot_point.status = PlotStatus.active then
    { st1 with unresolved_mysteries := setAdd st1.unresolved_mysteries plot_point.id }
  else st1

/-- `PlotManager.add_story_arc`. -/
def add_story_arc (st : PlotState) (arc : StoryArc) : PlotState :=
  { st with story_arcs := dictUpd st.story_arcs arc.id arc }

/-- The f-string `"\nРазрешено в главе {chapter}: {resolution}"` appended to
`notes` by `resolve_plot_point`. -/
def resolutionNote (chapter : Nat) (resolution : String) : String :=
  "\nРазрешено в главе " ++ toString chapter ++ ": " ++ resolution

/-- The cascade test of `resolve_plot_point`:
`plot_id in other_plot.dependencies and other_plot.status == PLANNED`. -/
def cascadeHitB (plot_id : String) (p : PlotPoint) : Bool :=
  decide (plot_id ∈ p.dependencies) && decide (p.status = PlotStatus.planned)

/-- The per-point effect of the cascade loop body. -/
def cascadeFn (plot_id : String) (p : PlotPoint) : PlotPoint :=
  if cascadeHitB plot_id p then { p with status := PlotStatus.active } else p

/-- `PlotManager.resolve_plot_point`.  The Python method mutates the looked-up
point in place, moves the id between the mystery sets, then iterates over all
stored points activating PLANNED direct dependents and adding their `id`
fields to `unresolved_mysteries`.  An unknown id silently leaves the state
unchanged (the body is guarded by `if plot_id in self.plot_points`, nothing
is raised). -/
def resolve_plot_point (st : PlotState) (plot_id : String) (resolution : String)
    (chapter : Nat) : PlotState :=
  match dlookup st.plot_points plot_id with
  | none => st
  | some plot =>
    let plot1 : PlotPoint :=
      { plot with
          status := PlotStatus.resolved
          chapter_resolved := some chapter
          notes := plot.notes ++ resolutionNote chapter resolution }
    let pps1 := dictUpd st.plot_points plot_id plot1
    let unres1 :=
      if plot_id ∈ st.unresolved_mysteries then
        setRemove st.unresolved_mysteries plot_id
      else st.unresolved_mysteries
    let rev1 :=
      if plot_id ∈ st.unresolved_mysteries then
        setAdd st.revealed_secrets plot_id
      else st.revealed_secrets
    { st with
        plot_points := pps1.map (fun e => (e.1, cascadeFn plot_id e.2))
        unresolved_mysteries :=
          pps1.foldl (fun u e => if cascadeHitB plot_id e.2 then setAdd u e.2.id else u) unres1
        revealed_secrets := rev1 }

/-- `PlotManager.introduce_plot_point`.  Unconditionally overwrites
`chapter_introduced`; a PLANNED point becomes ACTIVE and its id joins
`unresolved_mysteries`.  An unknown id silently leaves the state unchanged. -/
def introduce_plot_point (st : PlotState) (plot_id : String) (chapter : Nat) :
    PlotState :=
  match dlookup st.plot_points plot_id with
  | none => st
  | some plot =>
    let plot1 := { plot with chapter_introduced := some chapter }
    if plot.status = PlotStatus.planned then
      { st with
          plot_points := dictUpd st.plot_points plot_id
            { plot1 with status := PlotStatus.active }
          unresolved_mysteries := setAdd st.unresolved_mysteries plot_id }
    else
      { st with plot_points := dictUpd st.plot_points plot_id plot1 }

/-- `PlotManager.check_dependencies`. -/
def check_dependencies (st : PlotState) (plot_id : String) : Bool :=
  match dlookup st.plot_points plot_id with
  | none => false
  | some plot =>
    plot.dependencies.all (fun dep_id =>
      match dlookup st.plot_points dep_id with
      | none => true
      | some dep_plot => decide (dep_plot.status = PlotStatus.resolved))

/-- The membership-and-status test used by `get_arc_progress`:
`pid in self.plot_points and self.plot_points[pid].status == RESOLVED`. -/
def resolvedIn (st : PlotState) (pid : String) : Bool :=
  match dlookup st.plot_points pid with
  | none => false
  | some p => decide (p.status = PlotStatus.resolved)

/-- The record returned by `PlotManager.get_arc_progress`. -/
structure ArcProgress where
  arc_name : String
  progress_percentage : ℚ
  resolved : Nat
  total : Nat
  current_phase : String
deriving DecidableEq

/-- `PlotManager._determine_arc_phase` (its unused `arc` argument dropped).
The phase labels are the source's Russian strings. -/
def determine_arc_phase (resolved total : Nat) : String :=
  if total = 0 then "не начата"
  else
    let progress : ℚ := (resolved : ℚ) / (total : ℚ)
    if progress = 0 then "экспозиция"
    else if progress < 3/10 then "развитие"
    else if progress < 6/10 then "усложнение"
    else if progress < 8/10 then "кульминация"
    else if progress < 1 then "развязка"
    else "завершена"

/-- `PlotManager.get_arc_progress`; the Python method returns `{}` for an
unknown arc id, embedded as `none`. -/
def get_arc_progress (st : PlotState) (arc_id : String) : Option ArcProgress :=
  match dlookup st.story_arcs arc_id with
  | none => none
  | some arc =>
    let total_plots := arc.plot_points.length
    let resolved_plots := arc.plot_points.countP (resolvedIn st)
    some
      { arc_name := arc.name
        progress_percentage :=
          if total_plots > 0 then (resolved_plots : ℚ) / (total_plots : ℚ) * 100 else 0
        resolved := resolved_plots
        total := total_plots
        current_phase := determine_arc_phase resolved_plots total_plots }

/-! ### Exception-channel view

The spec's failure taxonomy names a NotFound error for plot operations with
an unknown id.  The Python bodies of `resolve_plot_point` and
`introduce_plot_point` contain no `raise` statement at all (each is guarded
by `if plot_id in self.plot_points`), so the faithful exception-channel view
of either method returns successfully on every input. -/

/-- Error taxonomy reserved by the spec for plot operations. -/
inductive PlotError
  | notFound
deriving DecidableEq

/-- Exception-channel view of `resolve_plot_point`: no path raises. -/
def resolve_plot_pointE (st : PlotState) (plot_id : String) (resolution : String)
    (chapter : Nat) : Except PlotError PlotState :=
  Except.ok (resolve_plot_point st plot_id resolution chapter)

/-- Exception-channel view of `introduce_plot_point`: no path raises. -/
def introduce_plot_pointE (st : PlotState) (plot_id : String) (chapter : Nat) :
    Except PlotError PlotState :=
  Except.ok (introduce_plot_point st plot_id chapter)

/-! ### The initial state built by `PlotManager.__init__` -/

/-- Plot point `king_killing` from `_initialize_book_three_plots`. -/
def kingKilling : PlotPoint :=
  { id := "king_killing"
    title := "Убийство короля"
    description := "Как и почему Квоут убил короля"
    importance := PlotImportance.critical
    status := PlotStatus.planned
    characters_involved := ["Квоут", "Король Винтаса"]
    revelations := ["Истинная причина убийства", "Последствия для мира"] }

/-- Plot point `chandrian_confrontation`. -/
def chandrianConfrontation : PlotPoint :=
  { id := "chandrian_confrontation"
    title := "Финальная встреча с Чандрианами"
    description := "Квоут наконец встречается с убийцами своей семьи"
    importance := PlotImportance.critical
    status := PlotStatus.planned
    characters_involved := ["Квоут", "Хэлиакс", "Циндер"]
    dependencies := ["amyr_truth", "denna_secret"] }

/-- Plot point `doors_of_stone`. -/
def doorsOfStone : PlotPoint :=
  { id := "doors_of_stone"
    title := "Тайна Дверей Камня"
    description := "Что скрывается за Дверями Камня"
    importance := PlotImportance.critical
    status := PlotStatus.planned
    revelations := ["Природа Дверей", "Связь с Иаксом", "Ключ к победе"] }

/-- Plot point `kvothe_transformation`. -/
def kvotheTransformation : PlotPoint :=
  { id := "kvothe_transformation"
    title := "Превращение Квоута в Коута"
    description := "Как легендарный герой стал сломленным трактирщиком"
    importance := PlotImportance.critical
    status := PlotStatus.planned
    consequences := ["Потеря магии", "Изменение имени", "Самоизгнание"] }

/-- Plot point `denna_revelation`. -/
def dennaRevelation : PlotPoint :=
  { id := "denna_revelation"
    title := "Правда о Денне"
    description := "Раскрытие тайны Денны и её покровителя"
    importance := PlotImportance.critical
    status := PlotStatus.planned
    characters_involved := ["Квоут", "Денна", "Мастер Эш"]
    revelations := ["Личность Мастера Эша", "Истинные цели Денны"] }

/-- Story arc `return_of_power` (note: its `plot_points` list is empty). -/
def returnOfPower : StoryArc :=
  { id := "return_of_power"
    name := "Возвращение силы"
    description := "Коут постепенно возвращает свои способности"
    themes := ["Идентичность", "Искупление", "Принятие прошлого"]
    emotional_journey :=
      [("начало", "отрицание"), ("середина", "борьба"), ("конец", "принятие")] }

/-- Story arc `chandrian_hunt`. -/
def chandrianHunt : StoryArc :=
  { id := "chandrian_hunt"
    name := "Охота на Чандриан"
    description := "Поиски и финальная конфронтация с Чандрианами"
    themes := ["Месть", "Справедливость", "Цена мести"]
    plot_points := ["chandrian_confrontation", "amyr_truth"] }

/-- Story arc `love_tragedy`. -/
def loveTragedy : StoryArc :=
  { id := "love_tragedy"
    name := "Трагедия любви"
    description := "Финал отношений Квоута и Денны"
    themes := ["Любовь", "Предательство", "Прощение"]
    plot_points := ["denna_revelation", "denna_choice"] }

/-- Story arc `legend_vs_man`. -/
def legendVsMan : StoryArc :=
  { id := "legend_vs_man"
    name := "Легенда против человека"
    description := "Конфликт между Квоутом-легендой и Коутом-человеком"
    themes := ["Идентичность", "Слава", "Человечность"]
    plot_points := ["kvothe_transformation", "final_choice"] }

/-- The nine unresolved mysteries assigned at the end of
`_initialize_book_three_plots` (the assignment replaces the set wholesale). -/
def initialMysteries : List String :=
  ["lackless_box", "amyr_purpose", "chandrian_curse", "cthaeh_prophecy",
   "auri_nature", "bast_plans", "skin_dancers", "scrael_origin",
   "waystone_significance"]

/-- The state constructed by `PlotManager.__init__`: the five critical plot
points added via `add_plot_point`, the four arcs via `add_story_arc`, then
`unresolved_mysteries` replaced by the fixed nine-element set. -/
def initState : PlotState :=
  let st0 : PlotState := {}
  let st1 :=
    [kingKilling, chandrianConfrontation, doorsOfStone, kvotheTransformation,
     dennaRevelation].foldl add_plot_point st0
  let st2 :=
    [returnOfPower, chandrianHunt, loveTragedy, legendVsMan].foldl add_story_arc st1
  { st2 with unresolved_mysteries := initialMysteries }

/-! ### Data model of `story_engine.py` -/

/-- `StoryEngine.max_context_size` (`50000` characters). -/
def maxContextSize : Nat := 50000

/-- Python slicing `s[:n]` on a string: the first `n` code points. -/
def strTake (s : String) (n : Nat) : String := String.mk (s.data.take n)

/-- Total character length of the context-window fragments. -/
def sumLen (l : List String) : Nat := (l.map String.length).sum

/-- The `while sum(len(t) for t in self.context_window) > self.max_context_size:
self.context_window.pop(0)` loop of `StoryEngine._update_context`. -/
def evictFront : List String → List String
  | [] => []
  | s :: rest =>
    if sumLen (s :: rest) > maxContextSize then evictFront rest else s :: rest

/-- `StoryEngine._update_context`: append the first 5000 characters of the new
text, then evict from the front while the total exceeds the maximum. -/
def updateContext (ctx : List String) (new_text : String) : List String :=
  evictFront (ctx ++ [strTake new_text 5000])

/-- `len(text.split())`: Python `str.split()` splits on whitespace runs and
drops empty pieces. -/
def wordCount (s : String) : Nat :=
  ((s.split Char.isWhitespace).filter (fun t => t ≠ "")).length

/-- `ChapterConfig` dataclass. -/
structure ChapterConfig where
  chapter_number : Nat
  narrative_type : String
  target_word_count : Nat := 5000
  plot_points_to_introduce : List String := []
  plot_points_to_resolve : List String := []
  mood : String := "mysterious"
  time_of_day : String := "night"
  key_scenes : List String := []
deriving DecidableEq

/-- `GenerationSession` dataclass.  `start_time`, `context_history` and
`quality_scores` are never read or written by the operations under
verification and are omitted; `session_id` stands for the
timestamp-derived id. -/
structure GenerationSession where
  session_id : String
  chapters_generated : List Nat := []
  total_words : Nat := 0
deriving DecidableEq

/-- The metadata dict recorded per chapter by `generate_chapter`; the
`last_updated` key is added only by `continue_chapter`, hence optional. -/
structure ChapterMeta where
  chapter_number : Nat
  narrative_type : String
  word_count : Nat
  generated_at : String
  plot_points_introduced : List String
  plot_points_resolved : List String
  last_updated : Option String := none
deriving DecidableEq

/-- The mutable state of a `StoryEngine` instance (the prompt templates and
character profiles are read-only inputs of the opaque generator call and are
not part of the mutated state). -/
structure EngineState where
  plot : PlotState
  current_session : Option GenerationSession := none
  generated_chapters : List (Nat × String) := []
  chapter_metadata : List (Nat × ChapterMeta) := []
  context_window : List String := []
deriving DecidableEq

/-- `StoryEngine.start_session`; `now` stands for the timestamp-derived
session id. -/
def start_session (st : EngineState) (now : String) : EngineState :=
  { st with current_session := some { session_id := now } }

/-- The f-string `f"Разрешено в главе {config.chapter_number}"` passed as the
resolution note by `StoryEngine._update_plot_state`. -/
def resolveMsg (chapter : Nat) : String :=
  "Разрешено в главе " ++ toString chapter

/-- `StoryEngine._update_plot_state`: introduce every listed id, then resolve
every listed id. -/
def update_plot_state (ps : PlotState) (config : ChapterConfig) : PlotState :=
  let ps1 := config.plot_points_to_introduce.foldl
    (fun s pid => introduce_plot_point s pid config.chapter_number) ps
  config.plot_points_to_resolve.foldl
    (fun s pid =>
      resolve_plot_point s pid (resolveMsg config.chapter_number) config.chapter_number)
    ps1

/-- The observable chapter history of the current session (`[]` when no
session exists). -/
def sessionChapters (st : EngineState) : List Nat :=
  match st.current_session with
  | none => []
  | some s => s.chapters_generated

/-- The observable running word total of the current session (`0` when no
session exists). -/
def sessionTotalWords (st : EngineState) : Nat :=
  match st.current_session with
  | none => 0
  | some s => s.total_words

/-- `StoryEngine.generate_chapter`.  The external generator call is the
opaque parameter `genResult : Except ε String` (`ε` is the collaborator's
error type, forwarded verbatim); `now` stands for every timestamp taken
during the call.  The Python control flow: ensure a session, assemble
prompts (read-only), call the generator inside `try`, and only on success
store the text, record metadata, update the context window, apply the plot
introductions/resolutions and bump the session counters; on failure the
exception is re-raised unchanged. -/
def generate_chapter {ε : Type} (st : EngineState) (config : ChapterConfig)
    (now : String) (genResult : Except ε String) :
    EngineState × Except ε (String × ChapterMeta) :=
  let st0 := if st.current_session.isSome then st else start_session st now
  match genResult with
  | Except.error e => (st0, Except.error e)
  | Except.ok chapter_text =>
    let metadata : ChapterMeta :=
      { chapter_number := config.chapter_number
        narrative_type := config.narrative_type
        word_count := wordCount chapter_text
        generated_at := now
        plot_points_introduced := config.plot_points_to_introduce
        plot_points_resolved := config.plot_points_to_resolve }
    let st1 := { st0 with
      generated_chapters := dictUpd st0.generated_chapters config.chapter_number chapter_text }
    let st2 := { st1 with
      chapter_metadata := dictUpd st1.chapter_metadata config.chapter_number metadata }
    let st3 := { st2 with context_window := updateContext st2.context_window chapter_text }
    let st4 := { st3 with plot := update_plot_state st3.plot config }
    let st5 :=
      match st4.current_session with
      | none => st4
      | some s =>
        let s' := { s with
          chapters_generated := s.chapters_generated ++ [config.chapter_number]
          total_words := s.total_words + metadata.word_count }
        { st4 with current_session := some s' }
    (st5, Except.ok (chapter_text, metadata))

/-- Errors observable from `StoryEngine.continue_chapter`: the `ValueError`
raised for an unknown chapter, a propagated generator failure, and the
`KeyError` a missing metadata entry would raise. -/
inductive ContinueError (ε : Type)
  | notFound
  | generation (e : ε)
  | metadataMissing

/-- `StoryEngine.continue_chapter`.  Raises for an unknown chapter number;
otherwise invokes the generator (opaque `genResult`), appends the
continuation to the stored text after a blank line, and rewrites the
chapter's metadata word count and `last_updated` timestamp.  Nothing else is
touched: no context-window, plot or session update. -/
def continue_chapter {ε : Type} (st : EngineState) (chapter_number : Nat)
    (now : String) (genResult : Except ε String) :
    EngineState × Except (ContinueError ε) String :=
  match dlookup st.generated_chapters chapter_number with
  | none => (st, Except.error ContinueError.notFound)
  | some current_text =>
    match genResult with
    | Except.error e => (st, Except.error (ContinueError.generation e))
    | Except.ok continuation =>
      let full_text := current_text ++ "\n\n" ++ continuation
      let st1 := { st with
        generated_chapters := dictUpd st.generated_chapters chapter_number full_text }
      match dlookup st1.chapter_metadata chapter_number with
      | none => (st1, Except.error ContinueError.metadataMissing)
      | some m =>
        ({ st1 with
            chapter_metadata := dictUpd st1.chapter_metadata chapter_number
              { m with word_count := wordCount full_text, last_updated := some now } },
         Except.ok continuation)

/-- A small concrete chapter-metadata record used as a test fixture. -/
def sampleMeta : ChapterMeta :=
  { chapter_number := 1
    narrative_type := "frame"
    word_count := 2
    generated_at := "t0"
    plot_points_introduced := []
    plot_points_resolved := [] }

/-- A small concrete engine state with one stored chapter, used as a test
fixture. -/
def sampleEngineState : EngineState :=
  { plot := initState
    current_session := some { session_id := "s0", chapters_generated := [1], total_words := 2 }
    generated_chapters := [(1, "Первая глава")]
    chapter_metadata := [(1, sampleMeta)]
    context_window := ["Первая глава"] }

/-! ### Invariants and operation sequences over the plot graph -/

/-- Well-formedness of the point store: every stored value's `id` field equals
its key.  Every insertion the class performs keys a point by its `id`. -/
def wfB (st : PlotState) : Bool :=
  st.plot_points.all (fun e => decide (e.2.id = e.1))

/-- The point store has no duplicate keys (true of every state the class can
construct: dict assignment overwrites in place). -/
def nodupKeysB (st : PlotState) : Bool :=
  decide (st.plot_points.map Prod.fst).Nodup

/-- The two mystery sets are disjoint. -/
def disjointB (st : PlotState) : Bool :=
  st.unresolved_mysteries.all (fun x => decide (x ∉ st.revealed_secrets))

/-- Every revealed secret names a stored plot point whose status is RESOLVED. -/
def revealedResolvedB (st : PlotState) : Bool :=
  st.revealed_secrets.all (resolvedIn st)

/-- The inductive invariant carrying the disjointness of the mystery sets. -/
def mysteryInv (st : PlotState) : Bool :=
  wfB st && nodupKeysB st && disjointB st && revealedResolvedB st

/-- Every stored point with both chapter fields set has
`chapter_introduced ≤ chapter_resolved`. -/
def chapterOrderB (st : PlotState) : Bool :=
  st.plot_points.all (fun e =>
    match e.2.chapter_introduced, e.2.chapter_resolved with
    | some ci, some cr => decide (ci ≤ cr)
    | _, _ => true)

/-- The chapter passed to `resolve_plot_point` is not below the target's
`chapter_introduced` (vacuously true for an unknown id or an unset field). -/
def resolveChapterOkB (st : PlotState) (plot_id : String) (chapter : Nat) : Bool :=
  match dlookup st.plot_points plot_id with
  | none => true
  | some p =>
    match p.chapter_introduced with
    | none => true
    | some ci => decide (ci ≤ chapter)

/-- The chapter passed to `introduce_plot_point` is not above the target's
`chapter_resolved` (vacuously true for an unknown id or an unset field). -/
def introduceChapterOkB (st : PlotState) (plot_id : String) (chapter : Nat) : Bool :=
  match dlookup st.plot_points plot_id with
  | none => true
  | some p =>
    match p.chapter_resolved with
    | none => true
    | some cr => decide (chapter ≤ cr)

/-- The three mutating plot-graph operations. -/
inductive PlotOp
  | addPoint (p : PlotPoint)
  | introduce (plot_id : String) (chapter : Nat)
  | resolve (plot_id : String) (resolution : String) (chapter : Nat)

/-- Apply one operation. -/
def applyOp (st : PlotState) : PlotOp → PlotState
  | PlotOp.addPoint p => add_plot_point st p
  | PlotOp.introduce i c => introduce_plot_point st i c
  | PlotOp.resolve i r c => resolve_plot_point st i r c

/-- Apply a sequence of operations in order. -/
def applyOps (st : PlotState) (ops : List PlotOp) : PlotState :=
  ops.foldl applyOp st

/-- An `add` is benign when the added point's id is not already a revealed
secret; `introduce` and `resolve` are always benign. -/
def addFreshB (st : PlotState) : PlotOp → Bool
  | PlotOp.addPoint p => decide (p.id ∉ st.revealed_secrets)
  | _ => true

/-- Every `add` in the sequence is benign at the state where it executes. -/
def okSeqB : PlotState → List PlotOp → Bool
  | _, [] => true
  | st, op :: rest => addFreshB st op && okSeqB (applyOp st op) rest

/-! ### Specification predicates (statements of the claims) -/

/-- Postcondition of `resolve_plot_point st a resolution chapter` when the
looked-up point is `pA`: the point becomes RESOLVED with the chapter and
appended note recorded; `a` moves from `unresolved` to `revealed` when it was
unresolved and the two sets keep `a`-membership unchanged otherwise; every
other point directly depending on `a` that was PLANNED becomes ACTIVE and
joins `unresolved`; every other point not directly depending on `a` keeps
its status. -/
def ResolveSpec (st : PlotState) (a : String) (pA : PlotPoint)
    (resolution : String) (chapter : Nat) : Prop :=
  let st' := resolve_plot_point st a resolution chapter
  dlookup st'.plot_points a = some
      { pA with
          status := PlotStatus.resolved
          chapter_resolved := some chapter
          notes := pA.notes ++ resolutionNote chapter resolution } ∧
  (a ∈ st.unresolved_mysteries →
    a ∉ st'.unresolved_mysteries ∧ a ∈ st'.revealed_secrets) ∧
  (a ∉ st.unresolved_mysteries →
    a ∉ st'.unresolved_mysteries ∧ st'.revealed_secrets = st.revealed_secrets) ∧
  (∀ b pB, b ≠ a → dlookup st.plot_points b = some pB →
    a ∈ pB.dependencies → pB.status = PlotStatus.planned →
      dlookup st'.plot_points b = some { pB with status := PlotStatus.active } ∧
      b ∈ st'.unresolved_mysteries) ∧
  (∀ b pB, b ≠ a → dlookup st.plot_points b = some pB →
    a ∉ pB.dependencies →
      (dlookup st'.plot_points b).map PlotPoint.status = some pB.status)

/-- Postcondition of `check_dependencies` for a stored point `p`: true iff
every dependency id is absent from the graph or RESOLVED; consequently true
for a PLANNED point whose dependencies all exist RESOLVED, and appending one
existing non-RESOLVED dependency id to `p`'s list forces false. -/
def CheckDepsSpec (st : PlotState) (i : String) (p : PlotPoint) : Prop :=
  (check_dependencies st i = true ↔
    ∀ dep ∈ p.dependencies,
      dlookup st.plot_points dep = none ∨
      ∃ dp, dlookup st.plot_points dep = some dp ∧ dp.status = PlotStatus.resolved) ∧
  (p.status = PlotStatus.planned →
    (∀ dep ∈ p.dependencies,
      ∃ dp, dlookup st.plot_points dep = some dp ∧ dp.status = PlotStatus.resolved) →
    check_dependencies st i = true) ∧
  (∀ d pd, dlookup st.plot_points d = some pd → pd.status ≠ PlotStatus.resolved →
    check_dependencies
      { st with plot_points :=
          dictUpd st.plot_points i { p with dependencies := p.dependencies ++ [d] } }
      i = false)

/-- Postcondition of `get_arc_progress st arc_id` for a stored arc `arc`:
`total` counts all listed ids, `resolved` counts the stored-and-RESOLVED
ones (an id absent from the graph is never counted resolved), the percentage
is `resolved / total * 100` (`0` for an empty arc), and the phase label is
fixed by the resolved fraction `p` through the source's breakpoints — with
`"экспозиция"` at `p = 0` for a nonempty arc, a label distinct from the
`"не начата"` of an empty arc. -/
def ArcProgressSpec (st : PlotState) (arc_id : String) (arc : StoryArc) : Prop :=
  ∃ ap, get_arc_progress st arc_id = some ap ∧
    ap.arc_name = arc.name ∧
    ap.total = arc.plot_points.length ∧
    ap.resolved = arc.plot_points.countP (resolvedIn st) ∧
    (∀ pid, dlookup st.plot_points pid = none → resolvedIn st pid = false) ∧
    ap.resolved ≤ ap.total ∧
    ap.progress_percentage =
      (if ap.total = 0 then 0 else (ap.resolved : ℚ) / (ap.total : ℚ) * 100) ∧
    (ap.total = 0 → ap.current_phase = "не начата") ∧
    (∀ p : ℚ, 0 < ap.total → p = (ap.resolved : ℚ) / (ap.total : ℚ) →
      (p = 0 → ap.current_phase = "экспозиция") ∧
      (0 < p → p < 3/10 → ap.current_phase = "развитие") ∧
      (3/10 ≤ p → p < 6/10 → ap.current_phase = "усложнение") ∧
      (6/10 ≤ p → p < 8/10 → ap.current_phase = "кульминация") ∧
      (8/10 ≤ p → p < 1 → ap.current_phase = "развязка") ∧
      (p = 1 → ap.current_phase = "завершена"))

/-- Postcondition of a successful `continue_chapter st n now` returning
continuation `cont` from stored text `cur` with stored metadata `m`: only
chapter `n`'s text (original, blank line, continuation) and chapter `n`'s
metadata (recomputed word count, new timestamp) change; every other
chapter, the plot graph with its mystery sets, the context window and the
session are untouched. -/
def ContinueSpec (ε : Type) (st : EngineState) (n : Nat) (cur : String)
    (m : ChapterMeta) (cont now : String) (genResult : Except ε String) : Prop :=
  let r := continue_chapter st n now genResult
  r.2 = Except.ok cont ∧
  dlookup r.1.generated_chapters n = some (cur ++ "\n\n" ++ cont) ∧
  dlookup r.1.chapter_metadata n = some
    { m with
        word_count := wordCount (cur ++ "\n\n" ++ cont)
        last_updated := some now } ∧
  (∀ k, k ≠ n → dlookup r.1.generated_chapters k = dlookup st.generated_chapters k) ∧
  (∀ k, k ≠ n → dlookup r.1.chapter_metadata k = dlookup st.chapter_metadata k) ∧
  r.1.plot = st.plot ∧
  r.1.context_window = st.context_window ∧
  r.1.current_session = st.current_session

/-! ### Helper lemmas about dictionaries and sets -/

theorem mem_setAdd {α : Type} [DecidableEq α] {s : List α} {x y : α} :
    y ∈ setAdd s x ↔ y ∈ s ∨ y = x := by
  unfold setAdd
  by_cases h : x ∈ s
  · rw [if_pos h]
    exact ⟨Or.inl, fun hc => hc.elim id (fun e => e ▸ h)⟩
  · rw [if_neg h]
    simp [List.mem_append]

theorem mem_setRemove {α : Type} [DecidableEq α] {s : List α} {x y : α} :
    y ∈ setRemove s x ↔ y ∈ s ∧ y ≠ x := by
  simp [setRemove, List.mem_filter]

theorem dlookup_mem {κ β : Type} [DecidableEq κ] {d : List (κ × β)} {k : κ} {v : β}
    (h : dlookup d k = some v) : (k, v) ∈ d := by
  induction d with
  | nil => simp [dlookup] at h
  | cons e rest ih =>
    obtain ⟨k0, v0⟩ := e
    rw [dlookup] at h
    by_cases he : k0 = k
    · rw [if_pos (by simpa using he)] at h
      injection h with h2
      subst he; subst h2
      exact List.mem_cons_self _ _
    · rw [if_neg (by simpa using he)] at h
      exact List.mem_cons_of_mem _ (ih h)

theorem dlookup_eq_none_iff {κ β : Type} [DecidableEq κ] {d : List (κ × β)} {k : κ} :
    dlookup d k = none ↔ k ∉ d.map Prod.fst := by
  induction d with
  | nil => simp [dlookup]
  | cons e rest ih =>
    obtain ⟨k0, v0⟩ := e
    rw [dlookup]
    by_cases he : k0 = k
    · subst he; simp
    · rw [if_neg (by simpa using he)]
      simp [ih, Ne.symm he]

theorem dlookup_of_mem_nodup {κ β : Type} [DecidableEq κ] {d : List (κ × β)}
    {k : κ} {v : β} (hnd : (d.map Prod.fst).Nodup) (h : (k, v) ∈ d) :
    dlookup d k = some v := by
  induction d with
  | nil => simp at h
  | cons e rest ih =>
    obtain ⟨k0, v0⟩ := e
    rw [List.map_cons, List.nodup_cons] at hnd
    rcases List.mem_cons.mp h with h1 | h1
    · injection h1 with e1 e2
      subst e1; subst e2
      rw [dlookup, if_pos rfl]
    · rw [dlookup]
      have hk : k0 ≠ k := by
        intro hc; subst hc
        exact hnd.1 (List.mem_map.mpr ⟨(k0, v), h1, rfl⟩)
      rw [if_neg hk]
      exact ih hnd.2 h1

theorem dlookup_map_val {κ β : Type} [DecidableEq κ] (f : β → β) (d : List (κ × β))
    (k : κ) :
    dlookup (d.map (fun e => (e.1, f e.2))) k = (dlookup d k).map f := by
  induction d with
  | nil => simp [dlookup]
  | cons e rest ih =>
    obtain ⟨k0, v0⟩ := e
    by_cases he : k0 = k
    · subst he
      simp [dlookup]
    · simp only [List.map_cons, dlookup, if_neg he]
      exact ih

theorem dlookup_append_right {κ β : Type} [DecidableEq κ] {d d' : List (κ × β)}
    {k : κ} (h : dlookup d k = none) :
    dlookup (d ++ d') k = dlookup d' k := by
  induction d with
  | nil => simp
  | cons e rest ih =>
    obtain ⟨k0, v0⟩ := e
    rw [dlookup] at h
    by_cases he : k0 = k
    · rw [if_pos he] at h; exact absurd h (by simp)
    · rw [if_neg he] at h
      rw [List.cons_append, dlookup, if_neg he]
      exact ih h

theorem dlookup_map_upd_self {κ β : Type} [DecidableEq κ] {d : List (κ × β)}
    {k : κ} {w : β} (v : β) (h : dlookup d k = some w) :
    dlookup (d.map (fun e => if e.1 = k then (k, v) else e)) k = some v := by
  induction d with
  | nil => simp [dlookup] at h
  | cons e rest ih =>
    obtain ⟨k0, v0⟩ := e
    rw [dlookup] at h
    by_cases he : k0 = k
    · rw [List.map_cons]
      have : (if (k0, v0).1 = k then (k, v) else (k0, v0)) = (k, v) := by
        rw [if_pos he]
      rw [this, dlookup, if_pos rfl]
    · rw [if_neg he] at h
      rw [List.map_cons]
      have : (if (k0, v0).1 = k then (k, v) else (k0, v0)) = (k0, v0) := by
        rw [if_neg he]
      rw [this, dlookup, if_neg he]
      exact ih h

theorem dlookup_map_upd_ne {κ β : Type} [DecidableEq κ] {d : List (κ × β)}
    {k k' : κ} (v : β) (h : k' ≠ k) :
    dlookup (d.map (fun e => if e.1 = k then (k, v) else e)) k' = dlookup d k' := by
  induction d with
  | nil => simp
  | cons e rest ih =>
    obtain ⟨k0, v0⟩ := e
    rw [List.map_cons]
    by_cases he : k0 = k
    · have : (if (k0, v0).1 = k then (k, v) else (k0, v0)) = (k, v) := by
        rw [if_pos he]
      rw [this, dlookup, if_neg (Ne.symm h), dlookup, if_neg (by simpa [he] using Ne.symm h)]
      exact ih
    · have : (if (k0, v0).1 = k then (k, v) else (k0, v0)) = (k0, v0) := by
        rw [if_neg he]
      rw [this, dlookup, dlookup]
      by_cases h0 : k0 = k'
      · rw [if_pos h0, if_pos h0]
      · rw [if_neg h0, if_neg h0]
        exact ih

theorem dlookup_dictUpd_self {κ β : Type} [DecidableEq κ] (d : List (κ × β))
    (k : κ) (v : β) : dlookup (dictUpd d k v) k = some v := by
  unfold dictUpd
  by_cases h : (dlookup d k).isSome
  · rw [if_pos h]
    obtain ⟨w, hw⟩ := Option.isSome_iff_exists.mp h
    exact dlookup_map_upd_self v hw
  · rw [if_neg h]
    have hn : dlookup d k = none := Option.not_isSome_iff_eq_none.mp h
    rw [dlookup_append_right hn, dlookup, if_pos rfl]

theorem dlookup_dictUpd_ne {κ β : Type} [DecidableEq κ] {k k' : κ}
    (d : List (κ × β)) (v : β) (h : k' ≠ k) :
    dlookup (dictUpd d k v) k' = dlookup d k' := by
  unfold dictUpd
  by_cases hp : (dlookup d k).isSome
  · rw [if_pos hp]
    exact dlookup_map_upd_ne v h
  · rw [if_neg hp]
    have hn : dlookup d k = none := Option.not_isSome_iff_eq_none.mp hp
    induction d with
    | nil =>
      simp [dlookup]
      exact fun hc => h hc.symm
    | cons e rest ih =>
      obtain ⟨k0, v0⟩ := e
      rw [dlookup] at hn
      by_cases he : k0 = k
      · rw [if_pos he] at hn; exact absurd hn (by simp)
      · rw [if_neg he] at hn
        rw [List.cons_append, dlookup, dlookup]
        by_cases h0 : k0 = k'
        · rw [if_pos h0, if_pos h0]
        · rw [if_neg h0, if_neg h0]
          exact ih (by simp [dlookup, hn]) hn

theorem mem_dictUpd_cases {κ β : Type} [DecidableEq κ] {d : List (κ × β)}
    {k : κ} {v : β} {e : κ × β} (h : e ∈ dictUpd d k v) :
    e = (k, v) ∨ e ∈ d := by
  unfold dictUpd at h
  by_cases hp : (dlookup d k).isSome
  · rw [if_pos hp] at h
    obtain ⟨e0, he0, heq⟩ := List.mem_map.mp h
    by_cases hk : e0.1 = k
    · rw [if_pos hk] at heq; exact Or.inl heq.symm
    · rw [if_neg hk] at heq; exact Or.inr (heq ▸ he0)
  · rw [if_neg hp] at h
    rcases List.mem_append.mp h with h1 | h1
    · exact Or.inr h1
    · exact Or.inl (List.mem_singleton.mp h1)

theorem isSome_dlookup_of_mem {κ β : Type} [DecidableEq κ] {d : List (κ × β)}
    {k : κ} {v : β} (h : (k, v) ∈ d) : (dlookup d k).isSome := by
  cases hx : dlookup d k with
  | some w => simp
  | none =>
    exact absurd (List.mem_map.mpr ⟨(k, v), h, rfl⟩) (dlookup_eq_none_iff.mp hx)

theorem mem_dictUpd_key_val {κ β : Type} [DecidableEq κ] {d : List (κ × β)}
    {k : κ} {v : β} {e : κ × β} (h : e ∈ dictUpd d k v) (hk : e.1 = k) :
    e.2 = v := by
  unfold dictUpd at h
  by_cases hp : (dlookup d k).isSome
  · rw [if_pos hp] at h
    obtain ⟨e0, he0, heq⟩ := List.mem_map.mp h
    by_cases h0 : e0.1 = k
    · rw [if_pos h0] at heq; rw [← heq]
    · rw [if_neg h0] at heq; subst heq; exact absurd hk h0
  · rw [if_neg hp] at h
    rcases List.mem_append.mp h with h1 | h1
    · exfalso
      apply hp
      obtain ⟨k0, v0⟩ := e
      simp only at hk
      subst hk
      exact isSome_dlookup_of_mem h1
    · rw [List.mem_singleton.mp h1]

theorem mem_dictUpd_of_mem_ne {κ β : Type} [DecidableEq κ] {d : List (κ × β)}
    {k : κ} {v : β} {e : κ × β} (h : e ∈ d) (hk : e.1 ≠ k) :
    e ∈ dictUpd d k v := by
  unfold dictUpd
  by_cases hp : (dlookup d k).isSome
  · rw [if_pos hp]
    exact List.mem_map.mpr ⟨e, h, by rw [if_neg hk]⟩
  · rw [if_neg hp]
    exact List.mem_append.mpr (Or.inl h)

theorem keys_dictUpd_present {κ β : Type} [DecidableEq κ] {d : List (κ × β)}
    {k : κ} (v : β) (h : (dlookup d k).isSome) :
    (dictUpd d k v).map Prod.fst = d.map Prod.fst := by
  unfold dictUpd
  rw [if_pos h, List.map_map]
  apply List.map_congr_left
  intro e _
  by_cases he : e.1 = k
  · simp [he]
  · simp [he]

theorem keys_dictUpd_absent {κ β : Type} [DecidableEq κ] {d : List (κ × β)}
    {k : κ} (v : β) (h : ¬(dlookup d k).isSome) :
    (dictUpd d k v).map Prod.fst = d.map Prod.fst ++ [k] := by
  unfold dictUpd
  rw [if_neg h, List.map_append]
  rfl

theorem nodup_keys_dictUpd {κ β : Type} [DecidableEq κ] {d : List (κ × β)}
    {k : κ} (v : β) (h : (d.map Prod.fst).Nodup) :
    ((dictUpd d k v).map Prod.fst).Nodup := by
  by_cases hp : (dlookup d k).isSome
  · rw [keys_dictUpd_present v hp]; exact h
  · rw [keys_dictUpd_absent v hp]
    have hk : k ∉ d.map Prod.fst :=
      dlookup_eq_none_iff.mp (Option.not_isSome_iff_eq_none.mp hp)
    exact List.nodup_append.mpr
      ⟨h, List.nodup_singleton k, by simpa [List.disjoint_singleton] using hk⟩

theorem mem_foldl_setAdd {α γ : Type} [DecidableEq γ] (f : α → Bool) (g : α → γ) :
    ∀ (l : List α) (u : List γ) (x : γ),
      x ∈ l.foldl (fun acc e => if f e then setAdd acc (g e) else acc) u ↔
        x ∈ u ∨ ∃ e, e ∈ l ∧ f e = true ∧ g e = x := by
  intro l
  induction l with
  | nil => intro u x; simp
  | cons e rest ih =>
    intro u x
    rw [List.foldl_cons]
    rw [ih]
    by_cases hf : f e
    · rw [if_pos hf, mem_setAdd]
      constructor
      · rintro ((hu | hx) | ⟨e', he', hf', hg'⟩)
        · exact Or.inl hu
        · exact Or.inr ⟨e, List.mem_cons_self _ _, hf, hx.symm⟩
        · exact Or.inr ⟨e', List.mem_cons_of_mem _ he', hf', hg'⟩
      · rintro (hu | ⟨e', he', hf', hg'⟩)
        · exact Or.inl (Or.inl hu)
        · rcases List.mem_cons.mp he' with rfl | he''
          · exact Or.inl (Or.inr hg'.symm)
          · exact Or.inr ⟨e', he'', hf', hg'⟩
    · rw [if_neg hf]
      constructor
      · rintro (hu | ⟨e', he', hf', hg'⟩)
        · exact Or.inl hu
        · exact Or.inr ⟨e', List.mem_cons_of_mem _ he', hf', hg'⟩
      · rintro (hu | ⟨e', he', hf', hg'⟩)
        · exact Or.inl hu
        · rcases List.mem_cons.mp he' with rfl | he''
          · exact absurd hf' (by simpa using hf)
          · exact Or.inr ⟨e', he'', hf', hg'⟩

/-! ### Bridging lemmas for the Bool-valued invariants -/

theorem wfB_iff {st : PlotState} :
    wfB st = true ↔ ∀ e ∈ st.plot_points, e.2.id = e.1 := by
  simp [wfB, List.all_eq_true]

theorem disjointB_iff {st : PlotState} :
    disjointB st = true ↔
      ∀ x ∈ st.unresolved_mysteries, x ∉ st.revealed_secrets := by
  simp [disjointB, List.all_eq_true]

theorem nodupKeysB_iff {st : PlotState} :
    nodupKeysB st = true ↔ (st.plot_points.map Prod.fst).Nodup := by
  simp [nodupKeysB]

theorem resolvedIn_iff {st : PlotState} {pid : String} :
    resolvedIn st pid = true ↔
      ∃ p, dlookup st.plot_points pid = some p ∧ p.status = PlotStatus.resolved := by
  unfold resolvedIn
  cases h : dlookup st.plot_points pid with
  | none => simp
  | some p => simp

theorem revealedResolvedB_iff {st : PlotState} :
    revealedResolvedB st = true ↔
      ∀ x ∈ st.revealed_secrets,
        ∃ p, dlookup st.plot_points x = some p ∧ p.status = PlotStatus.resolved := by
  unfold revealedResolvedB
  rw [List.all_eq_true]
  constructor
  · intro h x hx; exact resolvedIn_iff.mp (h x hx)
  · intro h x hx; exact resolvedIn_iff.mpr (h x hx)

theorem mysteryInv_parts {st : PlotState} (h : mysteryInv st = true) :
    wfB st = true ∧ nodupKeysB st = true ∧ disjointB st = true ∧
      revealedResolvedB st = true := by
  unfold mysteryInv at h
  simp only [Bool.and_eq_true] at h
  exact ⟨h.1.1.1, h.1.1.2, h.1.2, h.2⟩

theorem mysteryInv_mk {st : PlotState} (h1 : wfB st = true)
    (h2 : nodupKeysB st = true) (h3 : disjointB st = true)
    (h4 : revealedResolvedB st = true) : mysteryInv st = true := by
  unfold mysteryInv
  simp [h1, h2, h3, h4]

theorem cascadeHitB_iff {plot_id : String} {p : PlotPoint} :
    cascadeHitB plot_id p = true ↔
      plot_id ∈ p.dependencies ∧ p.status = PlotStatus.planned := by
  simp [cascadeHitB]

theorem chapterOrderB_iff {st : PlotState} :
    chapterOrderB st = true ↔
      ∀ e ∈ st.plot_points, ∀ ci cr, e.2.chapter_introduced = some ci →
        e.2.chapter_resolved = some cr → ci ≤ cr := by
  unfold chapterOrderB
  rw [List.all_eq_true]
  constructor
  · intro h e he ci cr h1 h2
    have := h e he
    rw [h1, h2] at this
    simpa using this
  · intro h e he
    cases h1 : e.2.chapter_introduced with
    | none => simp
    | some ci =>
      cases h2 : e.2.chapter_resolved with
      | none => simp
      | some cr => simpa using h e he ci cr h1 h2

/-! ### Structural lemmas about `resolve_plot_point` -/

theorem resolve_lookup_self {st : PlotState} {a : String} {pA : PlotPoint}
    (h : dlookup st.plot_points a = some pA) (resolution : String) (chapter : Nat) :
    dlookup (resolve_plot_point st a resolution chapter).plot_points a = some
      { pA with
          status := PlotStatus.resolved
          chapter_resolved := some chapter
          notes := pA.notes ++ resolutionNote chapter resolution } := by
  simp only [resolve_plot_point, h]
  rw [dlookup_map_val (cascadeFn a), dlookup_dictUpd_self]
  simp [cascadeFn, cascadeHitB]

/-- C1.  `resolve(A, note, chapter)` on a stored point `A` marks it RESOLVED
with the chapter and appended note, moves `A` from `unresolved` to `revealed`
exactly when it was unresolved, activates every other PLANNED point directly
depending on `A` (adding it to `unresolved`), and leaves the status of every
other point without a direct dependency on `A` unchanged — the cascade is
single-level per call. -/
theorem resolve_cascade_correct (st : PlotState) (a : String) (pA : PlotPoint)
    (resolution : String) (chapter : Nat)
    (hwf : wfB st = true) (h : dlookup st.plot_points a = some pA) :
    ResolveSpec st a pA resolution chapter := by
  have hwf' := wfB_iff.mp hwf
  have hpAid : pA.id = a := hwf' (a, pA) (dlookup_mem h)
  have hplot1 :
      ({ pA with
          status := PlotStatus.resolved
          chapter_resolved := some chapter
          notes := pA.notes ++ resolutionNote chapter resolution} : PlotPoint).id = a :=
    hpAid
  -- well-formedness of the store after the dict assignment
  have hwf1 : ∀ e ∈ dictUpd st.plot_points a
      { pA with
          status := PlotStatus.resolved
          chapter_resolved := some chapter
          notes := pA.notes ++ resolutionNote chapter resolution}, e.2.id = e.1 := by
    intro e he
    rcases mem_dictUpd_cases he with rfl | he'
    · exact hplot1
    · exact hwf' e he'
  -- no entry of the updated store cascades to the id `a` itself
  have hnota : ∀ e ∈ dictUpd st.plot_points a
      { pA with
          status := PlotStatus.resolved
          chapter_resolved := some chapter
          notes := pA.notes ++ resolutionNote chapter resolution},
      cascadeHitB a e.2 = true → e.2.id ≠ a := by
    intro e he hhit hid
    have hkey : e.1 = a := (hwf1 e he) ▸ hid
    have hval := mem_dictUpd_key_val he hkey
    rw [hval] at hhit
    have := (cascadeHitB_iff.mp hhit).2
    simp at this
  refine ⟨resolve_lookup_self h resolution chapter, ?_, ?_, ?_, ?_⟩
  · -- `a` was unresolved: it leaves `unresolved` and enters `revealed`
    intro hmem
    constructor
    · simp only [resolve_plot_point, h]
      intro hc
      rcases (mem_foldl_setAdd _ _ _ _ _).mp hc with hc1 | ⟨e, he, hhit, hid⟩
      · rw [if_pos hmem] at hc1
        exact absurd (mem_setRemove.mp hc1).2 (by simp)
      · exact hnota e he hhit hid
    · simp only [resolve_plot_point, h]
      rw [if_pos hmem]
      exact mem_setAdd.mpr (Or.inr rfl)
  · -- `a` was not unresolved: the sets are untouched for `a`
    intro hmem
    constructor
    · simp only [resolve_plot_point, h]
      intro hc
      rcases (mem_foldl_setAdd _ _ _ _ _).mp hc with hc1 | ⟨e, he, hhit, hid⟩
      · rw [if_neg hmem] at hc1
        exact hmem hc1
      · exact hnota e he hhit hid
    · simp only [resolve_plot_point, h]
      rw [if_neg hmem]
  · -- direct PLANNED dependents become ACTIVE and join `unresolved`
    intro b pB hba h_b hdep hstat
    have hb1 : dlookup (dictUpd st.plot_points a
        { pA with
            status := PlotStatus.resolved
            chapter_resolved := some chapter
            notes := pA.notes ++ resolutionNote chapter resolution}) b = some pB := by
      rw [dlookup_dictUpd_ne _ _ hba]
      exact h_b
    constructor
    · simp only [resolve_plot_point, h]
      rw [dlookup_map_val (cascadeFn a), hb1]
      simp [cascadeFn, cascadeHitB, hdep, hstat]
    · simp only [resolve_plot_point, h]
      refine (mem_foldl_setAdd _ _ _ _ _).mpr (Or.inr ⟨(b, pB), ?_, ?_, ?_⟩)
      · have : (b, pB) ∈ st.plot_points := dlookup_mem h_b
        exact mem_dictUpd_of_mem_ne this hba
      · exact cascadeHitB_iff.mpr ⟨hdep, hstat⟩
      · exact hwf' (b, pB) (dlookup_mem h_b)
  · -- points without a direct dependency on `a` keep their status
    intro b pB hba h_b hdep
    simp only [resolve_plot_point, h]
    have hb1 : dlookup (dictUpd st.plot_points a
        { pA with
            status := PlotStatus.resolved
            chapter_resolved := some chapter
            notes := pA.notes ++ resolutionNote chapter resolution}) b = some pB := by
      rw [dlookup_dictUpd_ne _ _ hba]
      exact h_b
    rw [dlookup_map_val (cascadeFn a), hb1]
    simp [cascadeFn, cascadeHitB, hdep]

/-- C1 witness: resolving `king_killing` in the initial state. -/
theorem resolve_cascade_correct_witness :
    wfB initState = true ∧
    dlookup initState.plot_points "king_killing" = some kingKilling ∧
    ResolveSpec initState "king_killing" kingKilling "сделано" 2 :=
  ⟨by decide, by decide,
    resolve_cascade_correct initState "king_killing" kingKilling "сделано" 2
      (by decide) (by decide)⟩

/-- C9.  Resolving a stored point twice is idempotent in status — it stays
RESOLVED — and the notes accumulate: the second resolution note is appended
after the first, never replacing it. -/
theorem resolve_twice_idempotent_append (st : PlotState) (a : String)
    (pA : PlotPoint) (n1 n2 : String) (c1 c2 : Nat)
    (h : dlookup st.plot_points a = some pA) :
    ((dlookup (resolve_plot_point (resolve_plot_point st a n1 c1) a n2 c2).plot_points
        a).map PlotPoint.status = some PlotStatus.resolved) ∧
    ((dlookup (resolve_plot_point (resolve_plot_point st a n1 c1) a n2 c2).plot_points
        a).map PlotPoint.notes =
      some (pA.notes ++ resolutionNote c1 n1 ++ resolutionNote c2 n2)) ∧
    (∃ s1 s2,
      (dlookup (resolve_plot_point (resolve_plot_point st a n1 c1) a n2 c2).plot_points
        a).map PlotPoint.notes = some (s1 ++ n1 ++ s2 ++ n2)) := by
  have h1 := resolve_lookup_self h n1 c1
  have h2 := resolve_lookup_self h1 n2 c2
  rw [h2]
  refine ⟨rfl, by simp [String.append_assoc], ?_⟩
  refine ⟨pA.notes ++ ("\nРазрешено в главе " ++ toString c1 ++ ": "),
    "\nРазрешено в главе " ++ toString c2 ++ ": ", ?_⟩
  simp [resolutionNote, String.append_assoc]

/-- C9 witness: double resolution of `doors_of_stone` in the initial state. -/
theorem resolve_twice_idempotent_append_witness :
    dlookup initState.plot_points "doors_of_stone" = some doorsOfStone ∧
    ((dlookup (resolve_plot_point (resolve_plot_point initState "doors_of_stone"
        "первая" 1) "doors_of_stone" "вторая" 4).plot_points
        "doors_of_stone").map PlotPoint.status = some PlotStatus.resolved ∧
      (dlookup (resolve_plot_point (resolve_plot_point initState "doors_of_stone"
        "первая" 1) "doors_of_stone" "вторая" 4).plot_points
        "doors_of_stone").map PlotPoint.notes =
        some (doorsOfStone.notes ++ resolutionNote 1 "первая" ++
          resolutionNote 4 "вторая") ∧
      (∃ s1 s2,
        (dlookup (resolve_plot_point (resolve_plot_point initState "doors_of_stone"
          "первая" 1) "doors_of_stone" "вторая" 4).plot_points
          "doors_of_stone").map PlotPoint.notes = some (s1 ++ "первая" ++ s2 ++ "вторая"))) :=
  ⟨by decide,
    resolve_twice_idempotent_append initState "doors_of_stone" doorsOfStone
      "первая" "вторая" 1 4 (by decide)⟩

/-- C2 counterexample.  On the unknown id `"ghost_plot"` both operations
return successfully (`Except.ok`) with the state unchanged: no NotFound
error reaches the caller, contradicting the claim that each call fails with
NotFound. -/
theorem unknown_id_returns_ok_counterexample :
    resolve_plot_pointE initState "ghost_plot" "запись" 1 = Except.ok initState ∧
    introduce_plot_pointE initState "ghost_plot" 1 = Except.ok initState ∧
    ∀ e : PlotError,
      resolve_plot_pointE initState "ghost_plot" "запись" 1 ≠ Except.error e :=
  ⟨by rfl, by rfl, fun e hc => by simp [resolve_plot_pointE] at hc⟩

/-- C2 (amended).  `introduce` and `resolve` with an id absent from the graph
return without raising any error and perform no state mutation: a silent
atomic no-op, not a NotFound failure. -/
theorem unknown_id_silent_noop (st : PlotState) (plot_id : String)
    (resolution : String) (c1 c2 : Nat)
    (h : dlookup st.plot_points plot_id = none) :
    resolve_plot_pointE st plot_id resolution c1 = Except.ok st ∧
    introduce_plot_pointE st plot_id c2 = Except.ok st := by
  constructor
  · simp [resolve_plot_pointE, resolve_plot_point, h]
  · simp [introduce_plot_pointE, introduce_plot_point, h]

/-- C2 witness: the unknown id `"amyr_truth"` (referenced as a dependency but
never stored) on the initial state. -/
theorem unknown_id_silent_noop_witness :
    dlookup initState.plot_points "amyr_truth" = none ∧
    (resolve_plot_pointE initState "amyr_truth" "запись" 3 = Except.ok initState ∧
      introduce_plot_pointE initState "amyr_truth" 5 = Except.ok initState) :=
  ⟨by decide, unknown_id_silent_noop initState "amyr_truth" "запись" 3 5 (by decide)⟩

/-- C8.  For a stored point, `check_dependencies` is true iff every listed
dependency id is either absent from the graph or RESOLVED; hence it is true
for a PLANNED point whose dependencies all exist and are RESOLVED, and
appending one existing non-RESOLVED dependency id to the list forces it
false. -/
theorem check_dependencies_correct (st : PlotState) (i : String) (p : PlotPoint)
    (h : dlookup st.plot_points i = some p) : CheckDepsSpec st i p := by
  have hmain : check_dependencies st i = true ↔
      ∀ dep ∈ p.dependencies,
        dlookup st.plot_points dep = none ∨
        ∃ dp, dlookup st.plot_points dep = some dp ∧
          dp.status = PlotStatus.resolved := by
    simp only [check_dependencies, h, List.all_eq_true]
    constructor
    · intro hall dep hdep
      have := hall dep hdep
      cases hd : dlookup st.plot_points dep with
      | none => exact Or.inl rfl
      | some dp =>
        rw [hd] at this
        exact Or.inr ⟨dp, rfl, by simpa using this⟩
    · intro hall dep hdep
      rcases hall dep hdep with hd | ⟨dp, hd, hs⟩
      · rw [hd]
      · rw [hd]; simpa using hs
  refine ⟨hmain, ?_, ?_⟩
  · intro _ hres
    exact hmain.mpr (fun dep hdep => Or.inr (hres dep hdep))
  · intro d pd hd hds
    set st' : PlotState :=
      { st with plot_points :=
          dictUpd st.plot_points i { p with dependencies := p.dependencies ++ [d] } }
      with hst'
    have hlook : dlookup st'.plot_points i =
        some { p with dependencies := p.dependencies ++ [d] } := by
      rw [hst']
      exact dlookup_dictUpd_self _ _ _
    have hdmem : d ∈ ({ p with dependencies := p.dependencies ++ [d] } :
        PlotPoint).dependencies := by
      simp
    simp only [check_dependencies, hlook]
    rw [List.all_eq_false]
    refine ⟨d, hdmem, ?_⟩
    by_cases hdi : d = i
    · subst hdi
      rw [hlook]
      simp only [Bool.not_eq_true]
      have : ({ p with dependencies := p.dependencies ++ [d] } :
          PlotPoint).status = pd.status := by
        have : p = pd := by
          rw [h] at hd
          exact Option.some.inj hd
        simp [this]
      rw [this]
      simpa using hds
    · have : dlookup st'.plot_points d = dlookup st.plot_points d := by
        rw [hst']
        exact dlookup_dictUpd_ne _ _ hdi
      rw [this, hd]
      simpa using hds

/-- C8 witness: `chandrian_confrontation` in the initial state — both its
listed dependencies are absent from the graph, so the check is vacuously
true, and appending the existing PLANNED point `king_killing` to its
dependency list makes it false. -/
theorem check_dependencies_correct_witness :
    dlookup initState.plot_points "chandrian_confrontation" =
      some chandrianConfrontation ∧
    CheckDepsSpec initState "chandrian_confrontation" chandrianConfrontation :=
  ⟨by decide,
    check_dependencies_correct initState "chandrian_confrontation"
      chandrianConfrontation (by decide)⟩

/-! ### Arc progress -/

theorem determine_arc_phase_spec (r t : Nat) (ht : 0 < t) (p : ℚ)
    (hp : p = (r : ℚ) / (t : ℚ)) :
    (p = 0 → determine_arc_phase r t = "экспозиция") ∧
    (0 < p → p < 3/10 → determine_arc_phase r t = "развитие") ∧
    (3/10 ≤ p → p < 6/10 → determine_arc_phase r t = "усложнение") ∧
    (6/10 ≤ p → p < 8/10 → determine_arc_phase r t = "кульминация") ∧
    (8/10 ≤ p → p < 1 → determine_arc_phase r t = "развязка") ∧
    (p = 1 → determine_arc_phase r t = "завершена") := by
  subst hp
  simp only [determine_arc_phase]
  rw [if_neg (Nat.pos_iff_ne_zero.mp ht)]
  refine ⟨?_, ?_, ?_, ?_, ?_, ?_⟩
  · intro h0; rw [if_pos h0]
  · intro h1 h2
    rw [if_neg (Ne.symm (ne_of_lt h1)), if_pos h2]
  · intro h1 h2
    rw [if_neg (by intro h0; rw [h0] at h1; linarith),
        if_neg (not_lt.mpr h1), if_pos h2]
  · intro h1 h2
    rw [if_neg (by intro h0; rw [h0] at h1; linarith),
        if_neg (by push_neg; linarith), if_neg (not_lt.mpr h1), if_pos h2]
  · intro h1 h2
    rw [if_neg (by intro h0; rw [h0] at h1; linarith),
        if_neg (by push_neg; linarith), if_neg (by push_neg; linarith),
        if_neg (not_lt.mpr h1), if_pos h2]
  · intro h1
    rw [if_neg (by rw [h1]; norm_num),
        if_neg (by rw [h1]; norm_num), if_neg (by rw [h1]; norm_num),
        if_neg (by rw [h1]; norm_num), if_neg (by rw [h1]; norm_num)]

/-- C3 counterexample.  The claim gives the same phase label "not started"
both to `p == 0` with a nonempty arc and to `totalCount == 0`.  On the
initial state the arc `chandrian_hunt` (two tracked ids, none resolved,
`p = 0`) reports phase `"экспозиция"` while the empty arc `return_of_power`
reports `"не начата"` — two distinct labels, so `p == 0` does not yield the
empty-arc "not started" label. -/
theorem arc_phase_exposition_counterexample :
    (get_arc_progress initState "chandrian_hunt").map ArcProgress.current_phase =
      some "экспозиция" ∧
    (get_arc_progress initState "return_of_power").map ArcProgress.current_phase =
      some "не начата" ∧
    ("экспозиция" : String) ≠ "не начата" := by
  refine ⟨?_, ?_, by decide⟩
  · have h : dlookup initState.story_arcs "chandrian_hunt" = some chandrianHunt := by
      decide
    have h2 : chandrianHunt.plot_points.countP (resolvedIn initState) = 0 := by decide
    simp only [get_arc_progress, h, h2, Option.map_some]
    norm_num [determine_arc_phase, chandrianHunt]
  · have h : dlookup initState.story_arcs "return_of_power" = some returnOfPower := by
      decide
    simp only [get_arc_progress, h, Option.map_some]
    norm_num [determine_arc_phase, returnOfPower]

/-- C3 (amended).  For every stored arc, `get_arc_progress` counts all listed
ids in `total` (ids absent from the graph count toward total, never toward
resolved), counts the RESOLVED stored ones in `resolved`, reports
`resolved / total * 100` (0 for an empty arc), and the phase label is fixed
by the resolved fraction through the source's breakpoints: `"не начата"`
(not started) only for an empty arc, `"экспозиция"` (exposition) at `p = 0`
for a nonempty arc, then `"развитие"`, `"усложнение"`, `"кульминация"`,
`"развязка"`, `"завершена"` at the claimed breakpoints; in particular the
two-id arc `chandrian_hunt` with exactly one id resolved reports percentage
`50` and phase `"усложнение"` (complication). -/
theorem arc_progress_correct :
    (∀ (st : PlotState) (arc_id : String) (arc : StoryArc),
      dlookup st.story_arcs arc_id = some arc → ArcProgressSpec st arc_id arc) ∧
    ((get_arc_progress (resolve_plot_point initState "chandrian_confrontation"
        "финал" 3) "chandrian_hunt").map ArcProgress.progress_percentage =
      some 50 ∧
     (get_arc_progress (resolve_plot_point initState "chandrian_confrontation"
        "финал" 3) "chandrian_hunt").map ArcProgress.current_phase =
      some "усложнение") := by
  refine ⟨?_, ?_, ?_⟩
  · intro st arc_id arc h
    simp only [ArcProgressSpec, get_arc_progress, h]
    refine ⟨_, rfl, rfl, rfl, rfl, ?_, ?_, ?_, ?_, ?_⟩
    · intro pid hnone
      simp [resolvedIn, hnone]
    · exact List.countP_le_length _
    · by_cases hL : arc.plot_points.length = 0 <;> simp [hL]
    · intro h0
      have hL : arc.plot_points.length = 0 := h0
      simp [determine_arc_phase, hL]
    · intro p hpos hp
      exact determine_arc_phase_spec _ _ hpos p hp
  · set st1 := resolve_plot_point initState "chandrian_confrontation" "финал" 3
      with hst1
    have h : dlookup st1.story_arcs "chandrian_hunt" = some chandrianHunt := by
      decide
    have h2 : chandrianHunt.plot_points.countP (resolvedIn st1) = 1 := by decide
    simp only [get_arc_progress, h, h2, Option.map_some]
    norm_num [chandrianHunt]
  · set st1 := resolve_plot_point initState "chandrian_confrontation" "финал" 3
      with hst1
    have h : dlookup st1.story_arcs "chandrian_hunt" = some chandrianHunt := by
      decide
    have h2 : chandrianHunt.plot_points.countP (resolvedIn st1) = 1 := by decide
    simp only [get_arc_progress, h, h2, Option.map_some]
    norm_num [determine_arc_phase, chandrianHunt]

/-- C3 witness: the spec applied to the stored arc `love_tragedy` of the
initial state. -/
theorem arc_progress_correct_witness :
    dlookup initState.story_arcs "love_tragedy" = some loveTragedy ∧
    ArcProgressSpec initState "love_tragedy" loveTragedy :=
  ⟨by decide,
    arc_progress_correct.1 initState "love_tragedy" loveTragedy (by decide)⟩

/-! ### Chapter ordering -/

/-- C7 counterexample.  The operations do not preserve the chapter-order
invariant for arbitrary chapter arguments: introducing `king_killing` at
chapter 5 and then resolving it at chapter 2 yields
`chapter_introduced = 5 > 2 = chapter_resolved`, so the invariant that held
before the resolve call fails after it. -/
theorem chapter_order_violation_counterexample :
    chapterOrderB (introduce_plot_point initState "king_killing" 5) = true ∧
    chapterOrderB (resolve_plot_point
      (introduce_plot_point initState "king_killing" 5) "king_killing"
      "запись" 2) = false ∧
    (dlookup (resolve_plot_point
      (introduce_plot_point initState "king_killing" 5) "king_killing"
      "запись" 2).plot_points "king_killing").map PlotPoint.chapter_introduced =
      some (some 5) ∧
    (dlookup (resolve_plot_point
      (introduce_plot_point initState "king_killing" 5) "king_killing"
      "запись" 2).plot_points "king_killing").map PlotPoint.chapter_resolved =
      some (some 2) := by
  refine ⟨by decide, by decide, by decide, by decide⟩

/-- C7 (amended).  The chapter-order invariant (`chapter_resolved ≥
chapter_introduced` whenever both are set) is preserved by `resolve` only
when the resolving chapter is not below the target's `chapter_introduced`,
and by `introduce` only when the introducing chapter is not above the
target's `chapter_resolved`; neither operation checks this, so it holds for
chapter arguments respecting those bounds, not arbitrary ones. -/
theorem chapter_order_preserved (st : PlotState) (i1 note : String) (c1 : Nat)
    (i2 : String) (c2 : Nat)
    (h : chapterOrderB st = true)
    (h1 : resolveChapterOkB st i1 c1 = true)
    (h2 : introduceChapterOkB st i2 c2 = true) :
    chapterOrderB (resolve_plot_point st i1 note c1) = true ∧
    chapterOrderB (introduce_plot_point st i2 c2) = true := by
  have horder := chapterOrderB_iff.mp h
  constructor
  · cases hl : dlookup st.plot_points i1 with
    | none => simpa [resolve_plot_point, hl] using h
    | some plot =>
      simp only [resolveChapterOkB, hl] at h1
      apply chapterOrderB_iff.mpr
      simp only [resolve_plot_point, hl]
      intro e he ci cr hci hcr
      obtain ⟨e0, he0, rfl⟩ := List.mem_map.mp he
      have hcf1 : (cascadeFn i1 e0.2).chapter_introduced = e0.2.chapter_introduced := by
        unfold cascadeFn; split <;> rfl
      have hcf2 : (cascadeFn i1 e0.2).chapter_resolved = e0.2.chapter_resolved := by
        unfold cascadeFn; split <;> rfl
      simp only at hci hcr
      rw [hcf1] at hci
      rw [hcf2] at hcr
      rcases mem_dictUpd_cases he0 with heq | hmem
      · rw [heq] at hci hcr
        simp only at hci hcr
        injection hcr with hcr2
        subst hcr2
        rw [hci] at h1
        simpa using h1
      · exact horder e0 hmem ci cr hci hcr
  · cases hl : dlookup st.plot_points i2 with
    | none => simpa [introduce_plot_point, hl] using h
    | some plot =>
      simp only [introduceChapterOkB, hl] at h2
      have key : ∀ v : PlotPoint, v.chapter_introduced = some c2 →
          v.chapter_resolved = plot.chapter_resolved →
          ∀ e ∈ dictUpd st.plot_points i2 v, ∀ ci cr,
            e.2.chapter_introduced = some ci → e.2.chapter_resolved = some cr →
            ci ≤ cr := by
        intro v hv1 hv2 e he ci cr hci hcr
        rcases mem_dictUpd_cases he with heq | hmem
        · rw [heq] at hci hcr
          simp only at hci hcr
          rw [hv1] at hci
          injection hci with hci2
          subst hci2
          rw [hv2] at hcr
          rw [hcr] at h2
          simpa using h2
        · exact horder e hmem ci cr hci hcr
      by_cases hst : plot.status = PlotStatus.planned
      · apply chapterOrderB_iff.mpr
        simp only [introduce_plot_point, hl, if_pos hst]
        exact key _ rfl rfl
      · apply chapterOrderB_iff.mpr
        simp only [introduce_plot_point, hl, if_neg hst]
        exact key _ rfl rfl

/-- C7 witness: resolving `king_killing` at chapter 3 and introducing
`doors_of_stone` at chapter 1 from the initial state. -/
theorem chapter_order_preserved_witness :
    chapterOrderB initState = true ∧
    resolveChapterOkB initState "king_killing" 3 = true ∧
    introduceChapterOkB initState "doors_of_stone" 1 = true ∧
    (chapterOrderB (resolve_plot_point initState "king_killing" "запись" 3) = true ∧
      chapterOrderB (introduce_plot_point initState "doors_of_stone" 1) = true) :=
  ⟨by decide, by decide, by decide,
    chapter_order_preserved initState "king_killing" "запись" 3 "doors_of_stone" 1
      (by decide) (by decide) (by decide)⟩

/-! ### Preservation of the mystery-set invariant -/

theorem cascadeFn_id (i : String) (q : PlotPoint) : (cascadeFn i q).id = q.id := by
  unfold cascadeFn; split <;> rfl

theorem keys_map_val {κ β : Type} (f : β → β) (d : List (κ × β)) :
    (d.map (fun e => (e.1, f e.2))).map Prod.fst = d.map Prod.fst := by
  rw [List.map_map]
  rfl

theorem mysteryInv_add (st : PlotState) (p : PlotPoint)
    (hfresh : p.id ∉ st.revealed_secrets) (hinv : mysteryInv st = true) :
    mysteryInv (add_plot_point st p) = true := by
  obtain ⟨hwf, hnd, hdisj, hrr⟩ := mysteryInv_parts hinv
  have hwf' := wfB_iff.mp hwf
  have hnd' := nodupKeysB_iff.mp hnd
  have hdisj' := disjointB_iff.mp hdisj
  have hrr' := revealedResolvedB_iff.mp hrr
  have hwf2 : ∀ u : List String, wfB
      { st with plot_points := dictUpd st.plot_points p.id p,
                unresolved_mysteries := u } = true := by
    intro u
    rw [wfB_iff]
    intro e he
    rcases mem_dictUpd_cases he with rfl | he'
    · rfl
    · exact hwf' e he'
  have hnd2 : ∀ u : List String, nodupKeysB
      { st with plot_points := dictUpd st.plot_points p.id p,
                unresolved_mysteries := u } = true := by
    intro u
    rw [nodupKeysB_iff]
    exact nodup_keys_dictUpd _ hnd'
  have hrr2 : ∀ u : List String, revealedResolvedB
      { st with plot_points := dictUpd st.plot_points p.id p,
                unresolved_mysteries := u } = true := by
    intro u
    rw [revealedResolvedB_iff]
    intro x hx
    have hxne : x ≠ p.id := fun hc => hfresh (hc ▸ hx)
    obtain ⟨q, hq, hqs⟩ := hrr' x hx
    refine ⟨q, ?_, hqs⟩
    show dlookup (dictUpd st.plot_points p.id p) x = some q
    rw [dlookup_dictUpd_ne _ _ hxne]
    exact hq
  by_cases hact : p.status = PlotStatus.active
  · simp only [add_plot_point, if_pos hact]
    apply mysteryInv_mk (hwf2 _) (hnd2 _) _ (hrr2 _)
    rw [disjointB_iff]
    intro x hx
    rcases mem_setAdd.mp hx with hx' | rfl
    · exact hdisj' x hx'
    · exact hfresh
  · simp only [add_plot_point, if_neg hact]
    apply mysteryInv_mk (hwf2 _) (hnd2 _) _ (hrr2 _)
    exact hdisj

theorem mysteryInv_introduce (st : PlotState) (i : String) (c : Nat)
    (hinv : mysteryInv st = true) :
    mysteryInv (introduce_plot_point st i c) = true := by
  obtain ⟨hwf, hnd, hdisj, hrr⟩ := mysteryInv_parts hinv
  have hwf' := wfB_iff.mp hwf
  have hnd' := nodupKeysB_iff.mp hnd
  have hdisj' := disjointB_iff.mp hdisj
  have hrr' := revealedResolvedB_iff.mp hrr
  cases hl : dlookup st.plot_points i with
  | none =>
    simpa [introduce_plot_point, hl] using hinv
  | some plot =>
    have hplotid : plot.id = i := hwf' (i, plot) (dlookup_mem hl)
    by_cases hst : plot.status = PlotStatus.planned
    · -- PLANNED branch: becomes ACTIVE and joins `unresolved`
      have hinotrev : i ∉ st.revealed_secrets := by
        intro hc
        obtain ⟨q, hq, hqs⟩ := hrr' i hc
        rw [hl] at hq
        injection hq with hq'
        rw [← hq'] at hqs
        rw [hst] at hqs
        exact PlotStatus.noConfusion hqs
      simp only [introduce_plot_point, hl, if_pos hst]
      apply mysteryInv_mk
      · rw [wfB_iff]
        intro e he
        rcases mem_dictUpd_cases he with rfl | he'
        · exact hplotid
        · exact hwf' e he'
      · rw [nodupKeysB_iff]
        exact nodup_keys_dictUpd _ hnd'
      · rw [disjointB_iff]
        intro x hx
        rcases mem_setAdd.mp hx with hx' | rfl
        · exact hdisj' x hx'
        · exact hinotrev
      · rw [revealedResolvedB_iff]
        intro x hx
        have hxne : x ≠ i := fun hc => hinotrev (hc ▸ hx)
        obtain ⟨q, hq, hqs⟩ := hrr' x hx
        refine ⟨q, ?_, hqs⟩
        show dlookup (dictUpd st.plot_points i _) x = some q
        rw [dlookup_dictUpd_ne _ _ hxne]
        exact hq
    · -- non-PLANNED branch: only `chapter_introduced` changes
      simp only [introduce_plot_point, hl, if_neg hst]
      apply mysteryInv_mk
      · rw [wfB_iff]
        intro e he
        rcases mem_dictUpd_cases he with rfl | he'
        · exact hplotid
        · exact hwf' e he'
      · rw [nodupKeysB_iff]
        exact nodup_keys_dictUpd _ hnd'
      · exact hdisj
      · rw [revealedResolvedB_iff]
        intro x hx
        obtain ⟨q, hq, hqs⟩ := hrr' x hx
        by_cases hxi : x = i
        · subst hxi
          rw [hl] at hq
          injection hq with hq'
          refine ⟨{ plot with chapter_introduced := some c }, ?_, ?_⟩
          · exact dlookup_dictUpd_self _ _ _
          · show plot.status = PlotStatus.resolved
            rw [hq']
            exact hqs
        · refine ⟨q, ?_, hqs⟩
          show dlookup (dictUpd st.plot_points i _) x = some q
          rw [dlookup_dictUpd_ne _ _ hxi]
          exact hq

theorem mysteryInv_resolve (st : PlotState) (i r : String) (c : Nat)
    (hinv : mysteryInv st = true) :
    mysteryInv (resolve_plot_point st i r c) = true := by
  obtain ⟨hwf, hnd, hdisj, hrr⟩ := mysteryInv_parts hinv
  have hwf' := wfB_iff.mp hwf
  have hnd' := nodupKeysB_iff.mp hnd
  have hdisj' := disjointB_iff.mp hdisj
  have hrr' := revealedResolvedB_iff.mp hrr
  cases hl : dlookup st.plot_points i with
  | none => simpa [resolve_plot_point, hl] using hinv
  | some plot =>
    have hplotid : plot.id = i := hwf' (i, plot) (dlookup_mem hl)
    set plot1 : PlotPoint :=
      { plot with
          status := PlotStatus.resolved
          chapter_resolved := some c
          notes := plot.notes ++ resolutionNote c r } with hplot1
    have hplot1id : plot1.id = i := hplotid
    have hplot1st : plot1.status = PlotStatus.resolved := rfl
    set pps1 := dictUpd st.plot_points i plot1 with hpps1
    have hwf1 : ∀ e ∈ pps1, e.2.id = e.1 := by
      intro e he
      rcases mem_dictUpd_cases he with rfl | he'
      · exact hplot1id
      · exact hwf' e he'
    have hnd1 : (pps1.map Prod.fst).Nodup := nodup_keys_dictUpd _ hnd'
    -- an entry that fires the cascade is PLANNED, so it is neither the
    -- resolved point itself nor a revealed secret
    have hhit_no : ∀ e ∈ pps1, cascadeHitB i e.2 = true →
        e.2.id ≠ i ∧ e.2.id ∉ st.revealed_secrets := by
      intro e he hhit
      have hkey : e.2.id = e.1 := hwf1 e he
      have hplanned := (cascadeHitB_iff.mp hhit).2
      constructor
      · intro hid
        have hval : e.2 = plot1 := mem_dictUpd_key_val he (hkey.symm.trans hid)
        rw [hval, hplot1st] at hplanned
        exact PlotStatus.noConfusion hplanned
      · intro hrev
        by_cases hei : e.2.id = i
        · have hval : e.2 = plot1 := mem_dictUpd_key_val he (hkey.symm.trans hei)
          rw [hval, hplot1st] at hplanned
          exact PlotStatus.noConfusion hplanned
        · have hepp : e ∈ st.plot_points := by
            rcases mem_dictUpd_cases he with rfl | h'
            · exact absurd hplot1id hei
            · exact h'
          obtain ⟨q, hq, hqs⟩ := hrr' e.2.id hrev
          have heq : dlookup st.plot_points e.2.id = some e.2 := by
            have : (e.2.id, e.2) = e := Prod.ext hkey rfl
            exact dlookup_of_mem_nodup hnd' (this ▸ hepp)
          rw [heq] at hq
          injection hq with hq'
          rw [← hq'] at hqs
          rw [hqs] at hplanned
          exact PlotStatus.noConfusion hplanned
    have hwf2res : ∀ e ∈ pps1.map (fun e => (e.1, cascadeFn i e.2)), e.2.id = e.1 := by
      intro e he
      obtain ⟨e0, he0, rfl⟩ := List.mem_map.mp he
      show (cascadeFn i e0.2).id = e0.1
      rw [cascadeFn_id]
      exact hwf1 e0 he0
    have hnd2res : ((pps1.map (fun e => (e.1, cascadeFn i e.2))).map Prod.fst).Nodup := by
      rw [keys_map_val]
      exact hnd1
    have hlookres : ∀ x : String, x ∈ st.revealed_secrets ∨ x = i →
        ∃ q, dlookup (pps1.map (fun e => (e.1, cascadeFn i e.2))) x = some q ∧
          q.status = PlotStatus.resolved := by
      intro x hx
      by_cases hxi : x = i
      · subst hxi
        refine ⟨cascadeFn x plot1, ?_, ?_⟩
        · rw [dlookup_map_val]
          rw [hpps1, dlookup_dictUpd_self]
          rfl
        · unfold cascadeFn
          split
          · rename_i hh
            rw [cascadeHitB_iff] at hh
            rw [hplot1st] at hh
            exact absurd hh.2 (by intro hc; exact PlotStatus.noConfusion hc)
          · exact hplot1st
      · rcases hx with hx | hx
        · obtain ⟨q, hq, hqs⟩ := hrr' x hx
          refine ⟨cascadeFn i q, ?_, ?_⟩
          · rw [dlookup_map_val]
            rw [hpps1, dlookup_dictUpd_ne _ _ hxi, hq]
            rfl
          · unfold cascadeFn
            split
            · rename_i hh
              rw [cascadeHitB_iff] at hh
              rw [hqs] at hh
              exact absurd hh.2 (by intro hc; exact PlotStatus.noConfusion hc)
            · exact hqs
        · exact absurd hx hxi
    by_cases hmem : i ∈ st.unresolved_mysteries
    · simp only [resolve_plot_point, hl, if_pos hmem]
      apply mysteryInv_mk
      · rw [wfB_iff]
        exact hwf2res
      · rw [nodupKeysB_iff]
        exact hnd2res
      · rw [disjointB_iff]
        intro x hx
        intro hrx
        have hrx' : x ∈ st.revealed_secrets ∨ x = i := mem_setAdd.mp hrx
        rcases (mem_foldl_setAdd _ _ _ _ _).mp hx with hx1 | ⟨e, he, hhit, hid⟩
        · obtain ⟨hxu, hxne⟩ := mem_setRemove.mp hx1
          rcases hrx' with hrv | rfl
          · exact hdisj' x hxu hrv
          · exact hxne rfl
        · obtain ⟨hne_i, hne_rev⟩ := hhit_no e he hhit
          rcases hrx' with hrv | rfl
          · exact hne_rev (hid ▸ hrv)
          · exact hne_i hid
      · rw [revealedResolvedB_iff]
        intro x hx
        exact hlookres x (mem_setAdd.mp hx)
    · simp only [resolve_plot_point, hl, if_neg hmem]
      apply mysteryInv_mk
      · rw [wfB_iff]
        exact hwf2res
      · rw [nodupKeysB_iff]
        exact hnd2res
      · rw [disjointB_iff]
        intro x hx hrx
        rcases (mem_foldl_setAdd _ _ _ _ _).mp hx with hx1 | ⟨e, he, hhit, hid⟩
        · exact hdisj' x hx1 hrx
        · exact (hhit_no e he hhit).2 (hid ▸ hrx)
      · rw [revealedResolvedB_iff]
        intro x hx
        exact hlookres x (Or.inl hx)

theorem mysteryInv_step (st : PlotState) (op : PlotOp)
    (hinv : mysteryInv st = true) (hfresh : addFreshB st op = true) :
    mysteryInv (applyOp st op) = true := by
  cases op with
  | addPoint p =>
    have : p.id ∉ st.revealed_secrets := by simpa [addFreshB] using hfresh
    exact mysteryInv_add st p this hinv
  | introduce i c => exact mysteryInv_introduce st i c hinv
  | resolve i r c => exact mysteryInv_resolve st i r c hinv

theorem mysteryInv_seq (ops : List PlotOp) :
    ∀ st : PlotState, mysteryInv st = true → okSeqB st ops = true →
      mysteryInv (applyOps st ops) = true := by
  induction ops with
  | nil => intro st hinv _; exact hinv
  | cons op rest ih =>
    intro st hinv hseq
    rw [okSeqB, Bool.and_eq_true] at hseq
    exact ih (applyOp st op) (mysteryInv_step st op hinv hseq.1) hseq.2

theorem applyOps_append_singleton (st : PlotState) (ops : List PlotOp)
    (op : PlotOp) :
    applyOps st (ops ++ [op]) = applyOp (applyOps st ops) op := by
  simp [applyOps, List.foldl_append]

theorem okSeqB_append (ops : List PlotOp) (op : PlotOp) :
    ∀ st : PlotState, okSeqB st (ops ++ [op]) = true →
      okSeqB st ops = true ∧ addFreshB (applyOps st ops) op = true := by
  induction ops with
  | nil =>
    intro st h
    rw [List.nil_append, okSeqB, Bool.and_eq_true] at h
    exact ⟨rfl, h.1⟩
  | cons o rest ih =>
    intro st h
    rw [List.cons_append, okSeqB, Bool.and_eq_true] at h
    obtain ⟨h1, h2⟩ := ih (applyOp st o) h.2
    refine ⟨?_, h2⟩
    rw [okSeqB, Bool.and_eq_true]
    exact ⟨h.1, h1⟩

/-- Under the invariant, a fresh member of `revealed_secrets` can only be
produced by a `resolve` of that very id, and the id simultaneously leaves
`unresolved_mysteries`: membership moves between the two sets only via
resolution. -/
theorem revealed_move_step (st : PlotState) (op : PlotOp) (x : String)
    (hinv : mysteryInv st = true)
    (hx' : x ∈ (applyOp st op).revealed_secrets)
    (hx : x ∉ st.revealed_secrets) :
    (∃ r c, op = PlotOp.resolve x r c) ∧
    x ∈ st.unresolved_mysteries ∧
    x ∉ (applyOp st op).unresolved_mysteries := by
  cases op with
  | addPoint p =>
    exfalso
    apply hx
    have heq : (applyOp st (PlotOp.addPoint p)).revealed_secrets =
        st.revealed_secrets := by
      simp only [applyOp, add_plot_point]
      by_cases hst : p.status = PlotStatus.active
      · rw [if_pos hst]
      · rw [if_neg hst]
    rw [heq] at hx'
    exact hx'
  | introduce i c =>
    exfalso
    apply hx
    have heq : (applyOp st (PlotOp.introduce i c)).revealed_secrets =
        st.revealed_secrets := by
      cases hl : dlookup st.plot_points i with
      | none => simp [applyOp, introduce_plot_point, hl]
      | some plot =>
        by_cases hst : plot.status = PlotStatus.planned
        · simp only [applyOp, introduce_plot_point, hl, if_pos hst]
        · simp only [applyOp, introduce_plot_point, hl, if_neg hst]
    rw [heq] at hx'
    exact hx'
  | resolve i r c =>
    cases hl : dlookup st.plot_points i with
    | none =>
      exfalso
      apply hx
      have heq : applyOp st (PlotOp.resolve i r c) = st := by
        simp [applyOp, resolve_plot_point, hl]
      rw [heq] at hx'
      exact hx'
    | some plot =>
      by_cases hmem : i ∈ st.unresolved_mysteries
      · have hrev : (applyOp st (PlotOp.resolve i r c)).revealed_secrets =
            setAdd st.revealed_secrets i := by
          simp only [applyOp, resolve_plot_point, hl, if_pos hmem]
        rw [hrev] at hx'
        rcases mem_setAdd.mp hx' with hc | hxi
        · exact absurd hc hx
        · subst hxi
          refine ⟨⟨r, c, rfl⟩, hmem, ?_⟩
          obtain ⟨hwf, _, _, _⟩ := mysteryInv_parts hinv
          have hwf' := wfB_iff.mp hwf
          have hplotid : plot.id = x := hwf' (x, plot) (dlookup_mem hl)
          intro hcmem
          simp only [applyOp, resolve_plot_point, hl, if_pos hmem] at hcmem
          rcases (mem_foldl_setAdd _ _ _ _ _).mp hcmem with h1 | ⟨e, he, hhit, hid⟩
          · exact absurd (mem_setRemove.mp h1).2 (by simp)
          · have hkeywf : e.2.id = e.1 := by
              rcases mem_dictUpd_cases he with rfl | he'
              · exact hplotid
              · exact hwf' e he'
            have hkey : e.1 = x := by
              rw [← hkeywf]
              exact hid
            have hval := mem_dictUpd_key_val he hkey
            rw [hval] at hhit
            have := (cascadeHitB_iff.mp hhit).2
            simp at this
      · exfalso
        apply hx
        have hrev : (applyOp st (PlotOp.resolve i r c)).revealed_secrets =
            st.revealed_secrets := by
          simp only [applyOp, resolve_plot_point, hl, if_neg hmem]
        rw [hrev] at hx'
        exact hx'

/-- C6 counterexample.  Disjointness is not preserved by arbitrary sequences:
introduce `king_killing`, resolve it (it moves into `revealed`), then re-add
it with status ACTIVE — `add` re-inserts the id into `unresolved` without
removing it from `revealed`, leaving it in both sets at once. -/
theorem mystery_sets_overlap_counterexample :
    disjointB initState = true ∧
    ("king_killing" ∈ (applyOps initState
      [PlotOp.introduce "king_killing" 1,
       PlotOp.resolve "king_killing" "запись" 2,
       PlotOp.addPoint { kingKilling with status := PlotStatus.active }]
      ).unresolved_mysteries ∧
     "king_killing" ∈ (applyOps initState
      [PlotOp.introduce "king_killing" 1,
       PlotOp.resolve "king_killing" "запись" 2,
       PlotOp.addPoint { kingKilling with status := PlotStatus.active }]
      ).revealed_secrets) := by
  refine ⟨by decide, by decide, by decide⟩

/-- C6 (amended).  `unresolved` and `revealed` are disjoint in the initial
constructed state and stay disjoint under every sequence of `introduce`,
`resolve`, and those `add(plotPoint)` operations whose point id is not
already in `revealed` when the add executes; and membership moves from
`unresolved` to `revealed` only via resolution: along any such sequence, an
id newly appearing in `revealed` can only be produced by a `resolve` of that
very id, which simultaneously removes it from `unresolved`.  (Re-adding an
ACTIVE-status point whose id was already revealed breaks disjointness, as
the counterexample shows.) -/
theorem mystery_sets_disjoint_preserved :
    disjointB initState = true ∧
    (∀ ops : List PlotOp, okSeqB initState ops = true →
      disjointB (applyOps initState ops) = true) ∧
    (∀ (ops : List PlotOp) (op : PlotOp) (x : String),
      okSeqB initState (ops ++ [op]) = true →
      x ∈ (applyOps initState (ops ++ [op])).revealed_secrets →
      x ∉ (applyOps initState ops).revealed_secrets →
      (∃ r c, op = PlotOp.resolve x r c) ∧
      x ∈ (applyOps initState ops).unresolved_mysteries ∧
      x ∉ (applyOps initState (ops ++ [op])).unresolved_mysteries) := by
  have hinit : mysteryInv initState = true := by decide
  refine ⟨by decide, ?_, ?_⟩
  · intro ops hseq
    exact (mysteryInv_parts (mysteryInv_seq ops initState hinit hseq)).2.2.1
  · intro ops op x hseq hx' hx
    obtain ⟨h1, _⟩ := okSeqB_append ops op initState hseq
    have hinv := mysteryInv_seq ops initState hinit h1
    rw [applyOps_append_singleton] at hx'
    rw [applyOps_append_singleton]
    exact revealed_move_step (applyOps initState ops) op x hinv hx' hx

/-- C6 witness: disjointness along the three-operation sequence introduce,
resolve, add-fresh, and the only-via-resolution movement of `king_killing`
at the resolve step of introduce-then-resolve. -/
theorem mystery_sets_disjoint_preserved_witness :
    (okSeqB initState
      [PlotOp.introduce "king_killing" 1,
       PlotOp.resolve "king_killing" "запись" 2,
       PlotOp.addPoint { doorsOfStone with status := PlotStatus.active }] = true ∧
     disjointB (applyOps initState
      [PlotOp.introduce "king_killing" 1,
       PlotOp.resolve "king_killing" "запись" 2,
       PlotOp.addPoint { doorsOfStone with status := PlotStatus.active }]) = true) ∧
    (okSeqB initState
      ([PlotOp.introduce "king_killing" 1] ++ [PlotOp.resolve "king_killing" "запись" 2]) = true ∧
     "king_killing" ∈ (applyOps initState
      ([PlotOp.introduce "king_killing" 1] ++
        [PlotOp.resolve "king_killing" "запись" 2])).revealed_secrets ∧
     "king_killing" ∉ (applyOps initState
      [PlotOp.introduce "king_killing" 1]).revealed_secrets ∧
     ((∃ r c, PlotOp.resolve "king_killing" "запись" 2 = PlotOp.resolve "king_killing" r c) ∧
      "king_killing" ∈ (applyOps initState
        [PlotOp.introduce "king_killing" 1]).unresolved_mysteries ∧
      "king_killing" ∉ (applyOps initState
        ([PlotOp.introduce "king_killing" 1] ++
          [PlotOp.resolve "king_killing" "запись" 2])).unresolved_mysteries)) :=
  ⟨⟨by decide,
    mystery_sets_disjoint_preserved.2.1
      [PlotOp.introduce "king_killing" 1,
       PlotOp.resolve "king_killing" "запись" 2,
       PlotOp.addPoint { doorsOfStone with status := PlotStatus.active }]
      (by decide)⟩,
   ⟨by decide, by decide, by decide,
    mystery_sets_disjoint_preserved.2.2
      [PlotOp.introduce "king_killing" 1]
      (PlotOp.resolve "king_killing" "запись" 2)
      "king_killing" (by decide) (by decide) (by decide)⟩⟩

/-! ### Context window -/

theorem strTake_length_le (t : String) (n : Nat) : (strTake t n).length ≤ n := by
  have : (strTake t n).length = (t.data.take n).length := rfl
  rw [this, List.length_take]
  exact min_le_left _ _

theorem evictFront_bound_drop :
    ∀ (l : List String) (x : String), x.length ≤ maxContextSize →
      sumLen (evictFront (l ++ [x])) ≤ maxContextSize ∧
      ∃ k, evictFront (l ++ [x]) = l.drop k ++ [x] := by
  intro l
  induction l with
  | nil =>
    intro x hx
    rw [List.nil_append]
    have hn : ¬ sumLen [x] > maxContextSize := by
      simp only [sumLen, List.map_cons, List.map_nil, List.sum_cons, List.sum_nil,
        Nat.add_zero]
      exact not_lt.mpr hx
    simp only [evictFront, if_neg hn]
    refine ⟨not_lt.mp hn, 0, rfl⟩
  | cons a l ih =>
    intro x hx
    rw [List.cons_append]
    by_cases hgt : sumLen (a :: (l ++ [x])) > maxContextSize
    · simp only [evictFront, if_pos hgt]
      obtain ⟨hb, k, hk⟩ := ih x hx
      exact ⟨hb, k + 1, by simpa using hk⟩
    · simp only [evictFront, if_neg hgt]
      exact ⟨not_lt.mp hgt, 0, rfl⟩

/-- C4.  Starting from a context window within the bound, `append` first caps
the fragment at 5000 characters, then evicts only from the front (the result
is a tail of the old window followed by the capped new fragment, which is
therefore never evicted), and on return the total length is at most
`max_context_size`. -/
theorem context_window_bound (ctx : List String) (t : String)
    (h : sumLen ctx ≤ maxContextSize) :
    sumLen (updateContext ctx t) ≤ maxContextSize ∧
    ∃ k, updateContext ctx t = ctx.drop k ++ [strTake t 5000] := by
  have hlen : (strTake t 5000).length ≤ maxContextSize :=
    le_trans (strTake_length_le t 5000) (by norm_num [maxContextSize])
  exact evictFront_bound_drop ctx (strTake t 5000) hlen

/-- C4 witness: appending to a one-fragment window. -/
theorem context_window_bound_witness :
    sumLen ["Первая глава"] ≤ maxContextSize ∧
    (sumLen (updateContext ["Первая глава"] "новый текст") ≤ maxContextSize ∧
      ∃ k, updateContext ["Первая глава"] "новый текст" =
        (["Первая глава"] : List String).drop k ++ [strTake "новый текст" 5000]) :=
  ⟨by decide, context_window_bound ["Первая глава"] "новый текст" (by decide)⟩

/-! ### Chapter generation orchestrator -/

/-- C5.  When the stage-5 generator invocation fails, `generate_chapter`
propagates the very same error to the caller, and the chapter text store,
chapter metadata, plot graph (points and mystery sets), context window, and
the session's chapter history and running word total are all exactly as
before the call — stages 6 through 8 never run. -/
theorem generate_chapter_error_frame {ε : Type} (st : EngineState)
    (config : ChapterConfig) (now : String) (e : ε) :
    (generate_chapter st config now (Except.error e)).2 = Except.error e ∧
    (generate_chapter st config now (Except.error e)).1.generated_chapters =
      st.generated_chapters ∧
    (generate_chapter st config now (Except.error e)).1.chapter_metadata =
      st.chapter_metadata ∧
    (generate_chapter st config now (Except.error e)).1.plot = st.plot ∧
    (generate_chapter st config now (Except.error e)).1.context_window =
      st.context_window ∧
    sessionChapters (generate_chapter st config now (Except.error e)).1 =
      sessionChapters st ∧
    sessionTotalWords (generate_chapter st config now (Except.error e)).1 =
      sessionTotalWords st := by
  cases hs : st.current_session with
  | none =>
    simp [generate_chapter, hs, start_session, sessionChapters, sessionTotalWords]
  | some s =>
    simp [generate_chapter, hs, sessionChapters, sessionTotalWords]

/-- C10.  A successful `continue_chapter` on a stored chapter returns the
continuation, replaces only that chapter's text with
`original ++ blank line ++ continuation` and only that chapter's metadata
with the recomputed word count and new timestamp; every other chapter's text
and metadata, the plot graph with its mystery sets, the context window, and
the session (its chapter list and running word total included) are
unchanged — the continuation's words are never added to the session total. -/
theorem continue_chapter_frame {ε : Type} (st : EngineState) (n : Nat)
    (cur : String) (m : ChapterMeta) (cont now : String)
    (h1 : dlookup st.generated_chapters n = some cur)
    (h2 : dlookup st.chapter_metadata n = some m) :
    ContinueSpec ε st n cur m cont now (Except.ok cont) := by
  simp only [ContinueSpec, continue_chapter, h1, h2]
  refine ⟨by trivial, ?_, ?_, ?_, ?_, by trivial, by trivial, by trivial⟩
  · exact dlookup_dictUpd_self _ _ _
  · exact dlookup_dictUpd_self _ _ _
  · intro k hk
    exact dlookup_dictUpd_ne _ _ hk
  · intro k hk
    exact dlookup_dictUpd_ne _ _ hk

/-- C10 witness: continuing chapter 1 of the sample engine state. -/
theorem continue_chapter_frame_witness :
    dlookup sampleEngineState.generated_chapters 1 = some "Первая глава" ∧
    dlookup sampleEngineState.chapter_metadata 1 = some sampleMeta ∧
    ContinueSpec PlotError sampleEngineState 1 "Первая глава" sampleMeta
      "и её продолжение" "t1" (Except.ok "и её продолжение") :=
  ⟨by decide, by decide,
    continue_chapter_frame sampleEngineState 1 "Первая глава" sampleMeta
      "и её продолжение" "t1" (by decide) (by decide)⟩

end Storyteller
